import Mathlib

/-!
Verification of the face-comparison service in `app.py` (repository
Abhisri436/Facial_Recognition).

The service is a Flask app with one worker endpoint `POST /api/compare-faces`.
Its logic is pure sequencing around three effectful capabilities, which we
abstract as oracle parameters:

  * `fetch`   models `requests.get(url, timeout=10)` collapsed to
    success-with-bytes or failure (network exception or non-200 status),
    exactly as `compare_photo_with_url` collapses them (app.py lines 43-46, 67-71);
  * `verify`  models `DeepFace.verify(img1_path, img2_path, ...)["verified"]`,
    which either returns a boolean or raises (e.g. no face detected);
  * `b64`     models `base64.b64decode` on a string: decoded bytes or the
    raised exception's description.

Bytes are modelled as `List Nat`.  File-system effects (the transient files)
are modelled by explicit boolean fields recording whether each file was
created, written, and whether it still exists when the function returns;
the uuid-unique temporary names are abstracted to fixed names, which is
faithful for the single-request properties proved here.
-/

/-- Outcome of downloading a candidate URL.  `failure` covers every case the
source treats identically: a `requests` exception and a non-200 status code
(app.py lines 43-46 and 67-71). -/
inductive FetchResult where
  | failure
  | success (content : List Nat)
deriving DecidableEq

/-- Outcome of the external matcher `DeepFace.verify`: a boolean verdict, or a
raised exception (`error`), e.g. when no face is detected. -/
inductive VerifyResult where
  | ok (verified : Bool)
  | error
deriving DecidableEq

/-- Result of one candidate comparison, with the transient-file bookkeeping:
`verified` is the boolean returned by `compare_photo_with_url`, and
`tempFileLeaked` records whether the downloaded candidate's temporary file
(`temp_url_<uuid>.jpg`) still exists when the function returns. -/
structure UrlCompareResult where
  verified : Bool
  tempFileLeaked : Bool
deriving DecidableEq

/-- Shallow embedding of `compare_photo_with_url` (app.py lines 32-76).
Control flow of the source:
  * fetch failure (exception or non-200): return `False`; the temporary file
    was never written, and the exception handler's remove-if-exists is a
    no-op, so nothing is left behind;
  * fetch success: the bytes are written to the temporary file, then
    `DeepFace.verify` runs.  If it returns, the file is removed (lines 62-63)
    and its `verified` field is returned.  If it raises, only the outer
    `except Exception` (lines 73-76) catches it, which returns `False`
    WITHOUT removing the temporary file: the file is leaked. -/
def compare_photo_with_url (fetch : String → FetchResult)
    (verify : String → List Nat → VerifyResult)
    (photo_path image_url : String) : UrlCompareResult :=
  match fetch image_url with
  | FetchResult.failure => ⟨false, false⟩
  | FetchResult.success content =>
    match verify photo_path content with
    | VerifyResult.ok b => ⟨b, false⟩
    | VerifyResult.error => ⟨false, true⟩

/-- A JSON value, as produced by Flask's `request.json`.  Numbers are
modelled as integers (the claims only use integer examples). -/
inductive JsonVal where
  | str (s : String)
  | num (n : Int)
  | bool (b : Bool)
  | null
  | arr (elems : List JsonVal)
  | obj (fields : List (String × JsonVal))

/-- Shallow embedding of `compare_photo_and_array` (app.py lines 78-95):
scan the candidate list in order, returning the first element for which
`compare_photo_with_url` returns `True`, else `None`.  A non-string element
makes `requests.get` raise inside `compare_photo_with_url`'s own catch-all,
so it yields `False` and the scan continues; the `try/except` inside the
loop (lines 85-94) is therefore unreachable dead code, and continuing on it
coincides with continuing on a non-match. -/
def compare_photo_and_array (fetch : String → FetchResult)
    (verify : String → List Nat → VerifyResult)
    (photo_path : String) : List JsonVal → Option String
  | [] => none
  | JsonVal.str u :: rest =>
    if (compare_photo_with_url fetch verify photo_path u).verified then some u
    else compare_photo_and_array fetch verify photo_path rest
  | _ :: rest => compare_photo_and_array fetch verify photo_path rest

/-- Specification-side predicate for claim C1, written from the spec's words:
the candidate's fetch succeeds AND the face matcher reports a match (a
matcher error is not a match report). -/
def fetchAndMatch (fetch : String → FetchResult)
    (verify : String → List Nat → VerifyResult)
    (photo_path u : String) : Bool :=
  match fetch u with
  | FetchResult.failure => false
  | FetchResult.success content =>
    match verify photo_path content with
    | VerifyResult.ok b => b
    | VerifyResult.error => false

/-- The candidate's download fails (network error or non-200 status). -/
def fetchFailedB (fetch : String → FetchResult) (u : String) : Bool :=
  match fetch u with
  | FetchResult.failure => true
  | FetchResult.success _ => false

/-- The candidate downloads but the matcher raises on it. -/
def matcherErroredB (fetch : String → FetchResult)
    (verify : String → List Nat → VerifyResult) (photo_path u : String) : Bool :=
  match fetch u with
  | FetchResult.failure => false
  | FetchResult.success content =>
    match verify photo_path content with
    | VerifyResult.ok _ => false
    | VerifyResult.error => true

lemma verified_eq_fetchAndMatch (f : String → FetchResult)
    (v : String → List Nat → VerifyResult) (p u : String) :
    (compare_photo_with_url f v p u).verified = fetchAndMatch f v p u := by
  cases hf : f u with
  | failure => simp [compare_photo_with_url, fetchAndMatch, hf]
  | success c =>
    cases hv : v p c <;> simp [compare_photo_with_url, fetchAndMatch, hf, hv]

lemma failed_not_verified (f : String → FetchResult)
    (v : String → List Nat → VerifyResult) (p u : String)
    (h : fetchFailedB f u = true ∨ matcherErroredB f v p u = true) :
    (compare_photo_with_url f v p u).verified = false := by
  cases hf : f u with
  | failure => simp [compare_photo_with_url, hf]
  | success c =>
    cases hv : v p c with
    | ok b =>
      simp only [fetchFailedB, matcherErroredB, hf, hv] at h
      simp at h
    | error => simp [compare_photo_with_url, hf, hv]

lemma scan_skip (f : String → FetchResult) (v : String → List Nat → VerifyResult)
    (p x : String) (hx : (compare_photo_with_url f v p x).verified = false)
    (a b : List JsonVal) :
    compare_photo_and_array f v p (a ++ JsonVal.str x :: b) =
      compare_photo_and_array f v p (a ++ b) := by
  induction a with
  | nil => simp [compare_photo_and_array, hx]
  | cons y ys ih =>
    cases y <;> simp [compare_photo_and_array, ih]

/-- C1. `compare_photo_and_array` returns exactly the first URL, in input
order, for which the fetch succeeds and the matcher reports a match
(`List.find?` semantics), and returns `none` precisely when no candidate
both fetches and verifies. -/
theorem spec_c1_scan_first_match (f : String → FetchResult)
    (v : String → List Nat → VerifyResult) (p : String) (urls : List String) :
    compare_photo_and_array f v p (urls.map JsonVal.str) =
      urls.find? (fun u => fetchAndMatch f v p u)
    ∧ (compare_photo_and_array f v p (urls.map JsonVal.str)).isNone =
      urls.all (fun u => ! fetchAndMatch f v p u) := by
  have h1 : compare_photo_and_array f v p (urls.map JsonVal.str) =
      urls.find? (fun u => fetchAndMatch f v p u) := by
    induction urls with
    | nil => rfl
    | cons u rest ih =>
      simp only [List.map_cons, compare_photo_and_array, List.find?,
        verified_eq_fetchAndMatch, ih]
      cases fetchAndMatch f v p u <;> simp
  refine ⟨h1, ?_⟩
  rw [h1]
  clear h1
  induction urls with
  | nil => rfl
  | cons u rest ih =>
    simp only [List.find?, List.all_cons]
    cases fetchAndMatch f v p u <;> simp [ih]

/-- C2. Failure isolation in the scan: a candidate whose fetch fails or whose
matcher errors is treated exactly like a non-matching candidate (removing it
from the list does not change the result), and in particular when every
earlier candidate fails to download and candidate `u` fetches and matches,
the scan still returns `u`. -/
theorem spec_c2_failure_isolation (f : String → FetchResult)
    (v : String → List Nat → VerifyResult) (p : String)
    (a b : List JsonVal) (x : String)
    (hx : fetchFailedB f x = true ∨ matcherErroredB f v p x = true)
    (pre : List String) (u : String)
    (hpre : ∀ y ∈ pre, fetchFailedB f y = true)
    (hu : fetchAndMatch f v p u = true) :
    compare_photo_and_array f v p (a ++ JsonVal.str x :: b) =
      compare_photo_and_array f v p (a ++ b)
    ∧ compare_photo_and_array f v p ((pre ++ [u]).map JsonVal.str) = some u := by
  refine ⟨scan_skip f v p x (failed_not_verified f v p x hx) a b, ?_⟩
  induction pre with
  | nil =>
    simp [compare_photo_and_array, verified_eq_fetchAndMatch, hu]
  | cons y ys ih =>
    have hy : (compare_photo_with_url f v p y).verified = false :=
      failed_not_verified f v p y (Or.inl (hpre y (by simp)))
    simp only [List.cons_append, List.map_cons, compare_photo_and_array, hy,
      if_false, Bool.false_eq_true]
    exact ih (fun z hz => hpre z (by simp [hz]))

/-- Concrete fetch oracle for witnesses: the URL string `good` downloads to
the byte `[1]`, every other URL fails (models a network failure or a non-200
response from `requests.get`). -/
def fetchW : String → FetchResult := fun u =>
  if u = "good" then FetchResult.success [1] else FetchResult.failure

/-- Concrete matcher oracle for witnesses: reports a match exactly on the
bytes `[1]`, never raises. -/
def verifyW : String → List Nat → VerifyResult := fun _ c =>
  VerifyResult.ok (c = [1])

/-- Concrete matcher oracle that always raises (e.g. `DeepFace.verify` finding
no face in the downloaded image). -/
def verifyErr : String → List Nat → VerifyResult := fun _ _ => VerifyResult.error

/-- Concrete fetch oracle whose every download succeeds with the byte `[7]`. -/
def fetchS : String → FetchResult := fun _ => FetchResult.success [7]

theorem spec_c2_witness :
    (fetchFailedB fetchW "bad1" = true ∨ matcherErroredB fetchW verifyW "p" "bad1" = true)
    ∧ (∀ y ∈ ["bad1", "bad2"], fetchFailedB fetchW y = true)
    ∧ fetchAndMatch fetchW verifyW "p" "good" = true
    ∧ compare_photo_and_array fetchW verifyW "p"
        ((["bad1", "bad2"] ++ ["good"]).map JsonVal.str) = some "good" := by
  refine ⟨Or.inl (by decide), by decide, by decide, ?_⟩
  exact (spec_c2_failure_isolation fetchW verifyW "p" [] [] "bad1"
    (Or.inl (by decide)) ["bad1", "bad2"] "good" (by decide) (by decide)).2

/-- C3 (code bug). When the fetch succeeds and the matcher raises, the
downloaded candidate's temporary file is NOT removed: the exception escapes
the inner `try` (which only catches `RequestException`) and reaches the
outer handler at app.py line 73, which returns `False` without any cleanup,
contradicting the documented guarantee of deletion on every outcome. -/
theorem spec_c3_candidate_tempfile_leak :
    (compare_photo_with_url fetchS verifyErr "photo.jpg" "u").tempFileLeaked = true
    ∧ (compare_photo_with_url fetchS verifyErr "photo.jpg" "u").verified = false := by
  decide

/-- Membership of a comma character in a string, Python's substring test
`a_comma in s` specialised to a one-character needle (written over the char
list so that it reduces by structural recursion). -/
def strHasComma (s : String) : Bool :=
  s.toList.any (fun c => c = ',')

/-- Python's `s.split(',')` over the character list: split at every comma,
keeping empty segments, never empty output. -/
def splitOnComma : List Char → List (List Char)
  | [] => [[]]
  | c :: rest =>
    if c = ',' then [] :: splitOnComma rest
    else
      match splitOnComma rest with
      | [] => [[c]]
      | p :: ps => (c :: p) :: ps

/-- Key access on the parsed JSON object's field list (Python dict lookup;
a parsed JSON object has unique keys). -/
def lookupField (k : String) : List (String × JsonVal) → Option JsonVal
  | [] => none
  | kv :: rest => if kv.1 = k then some kv.2 else lookupField k rest

/-- Python type name of a JSON value, used in the exception texts the
endpoint echoes into 500/400 error fields (quotes in the Python messages are
elided). -/
def pyTypeName : JsonVal → String
  | JsonVal.str _ => "str"
  | JsonVal.num _ => "int"
  | JsonVal.bool _ => "bool"
  | JsonVal.null => "NoneType"
  | JsonVal.arr _ => "list"
  | JsonVal.obj _ => "dict"

/-- Python equality of a JSON value with the one-character string holding a
comma (used by the membership test on lists: only the string compares
equal). -/
def isCommaVal : JsonVal → Bool
  | JsonVal.str s => s = ","
  | _ => false

/-- Python `len` on a JSON value: defined for strings, lists and dicts,
raises `TypeError` (`none`) on numbers, booleans and `None`.  This is
evaluated at app.py line 114, before the empty check at line 117. -/
def pyLen : JsonVal → Option Nat
  | JsonVal.str s => some s.length
  | JsonVal.arr xs => some xs.length
  | JsonVal.obj fs => some fs.length
  | _ => none

/-- Python membership test `a_comma in v` (app.py line 124): substring test
on strings, element test on lists, key test on dicts, `TypeError` (`none`)
on numbers, booleans and `None`. -/
def commaTest : JsonVal → Option Bool
  | JsonVal.str s => some (strHasComma s)
  | JsonVal.arr xs => some (xs.any isCommaVal)
  | JsonVal.obj fs => some (fs.any (fun kv => kv.1 = ","))
  | _ => none

/-- Data-URI prefix stripping as the source performs it on a string
(app.py lines 124-126): when the string contains a comma, keep
`split(',')[1]`, the segment between the first and the second comma —
NOT everything after the first comma. -/
def stripComma (s : String) : String :=
  if strHasComma s then String.mk ((splitOnComma s.toList).getD 1 []) else s

/-- Python iteration over a JSON value with a `len` (string: its characters
as one-character strings; list: its elements; dict: its keys).  This is what
the `for` loop of `compare_photo_and_array` traverses when the endpoint
passes it `databaseUrls`. -/
def jsonItems : JsonVal → List JsonVal
  | JsonVal.str s => s.toList.map (fun c => JsonVal.str (String.singleton c))
  | JsonVal.arr xs => xs
  | JsonVal.obj fs => fs.map (fun kv => JsonVal.str kv.1)
  | _ => []

/-- Non-string scalar JSON values: exactly those on which the Python
membership test `a_comma in v` raises `TypeError`. -/
def isNonStrScalar : JsonVal → Bool
  | JsonVal.num _ => true
  | JsonVal.bool _ => true
  | JsonVal.null => true
  | _ => false

/-- Observable outcome of one `POST /api/compare-faces` request: the JSON
response fields and HTTP status, plus the lifecycle of the transient
captured-image file (`temp_captured_<uuid>.jpg`, abstracted to a fixed name):
whether `open` created it, whether the decoded image bytes were written to
it, and whether it still exists when the handler returns.  `b64Input`
records the string handed to `base64.b64decode`, `scanInvoked` whether
`compare_photo_and_array` ran. -/
structure HandlerResult where
  status : Nat
  matchFound : Bool
  matchedImageUrl : Option String := none
  confidence : Option ℚ := none
  message : Option String := none
  error : Option String := none
  scanInvoked : Bool := false
  capturedFileCreated : Bool := false
  capturedImageWritten : Bool := false
  capturedFileAtEnd : Bool := false
  b64Input : Option String := none

/-- Fixed stand-in for the uuid-named transient path of the captured image
(app.py line 131); uniqueness across concurrent requests is not needed for
the single-request properties proved here. -/
def capturedPath : String := "temp_captured.jpg"

/-- Response of app.py lines 104-107: missing body or missing field. -/
def invalidResp : HandlerResult :=
  { status := 400, matchFound := false,
    error := some "Invalid request data. Need capturedImage and databaseUrls." }

/-- Response of app.py lines 118-121: empty candidate list. -/
def noUrlsResp : HandlerResult :=
  { status := 400, matchFound := false,
    error := some "No database URLs provided" }

/-- Response of the outer `except Exception` handler, app.py lines 169-175:
HTTP 500 with the exception description.  Reached only before the captured
file is created. -/
def err500 (e : String) : HandlerResult :=
  { status := 500, matchFound := false, error := some e }

/-- Response of app.py lines 138-143: `base64.b64decode` raised on the
string payload.  The `open` call had already created the (empty) file and
nothing removes it on this path. -/
def decodeFailResp (payload e : String) : HandlerResult :=
  { status := 400, matchFound := false,
    error := some ("Invalid base64 image data: " ++ e),
    capturedFileCreated := true, capturedFileAtEnd := true,
    b64Input := some payload }

/-- Response of app.py lines 138-143 when `capturedImage` survived
validation as a non-string list or dict: `base64.b64decode` raises
`TypeError`, caught by the same inner handler. -/
def decodeTypeFailResp (v : JsonVal) : HandlerResult :=
  { status := 400, matchFound := false,
    error := some ("Invalid base64 image data: argument should be a bytes-like object or ASCII string, not " ++ pyTypeName v),
    capturedFileCreated := true, capturedFileAtEnd := true }

/-- Response of app.py lines 161-167: no match; a normal 200, message but no
error field; the captured file was removed at lines 149-151. -/
def noMatchResp (payload : String) : HandlerResult :=
  { status := 200, matchFound := false,
    message := some "No matching face found in the database",
    scanInvoked := true, capturedFileCreated := true,
    capturedImageWritten := true, capturedFileAtEnd := false,
    b64Input := some payload }

/-- Responses of app.py lines 153-167 from the scan result.  `if match_url:`
is Python truthiness: `None` and the empty string both take the no-match
branch.  On a truthy URL the response carries the fixed confidence constant
0.85 of line 159. -/
def scanResp (payload : String) : Option String → HandlerResult
  | some u =>
    if u = "" then noMatchResp payload
    else
      { status := 200, matchFound := true, matchedImageUrl := some u,
        confidence := some ((85 : ℚ) / 100),
        scanInvoked := true, capturedFileCreated := true,
        capturedImageWritten := true, capturedFileAtEnd := false,
        b64Input := some payload }
  | none => noMatchResp payload

/-- Embedding of app.py lines 114-167, after both fields were found in the
body: evaluate `len(database_urls)` (line 114, may raise), reject an empty
candidate collection (lines 117-121), strip a data-URI prefix (lines
124-127, raising on a non-string with a comma element), create the
transient file and decode (lines 129-143), scan (line 146), clean up (lines
148-151) and build the response (lines 153-167). -/
def handleBody (fetch : String → FetchResult)
    (verify : String → List Nat → VerifyResult)
    (b64 : String → Except String (List Nat))
    (captured urls : JsonVal) : HandlerResult :=
  match pyLen urls with
  | none =>
    err500 ("object of type " ++ pyTypeName urls ++ " has no len()")
  | some n =>
    if n = 0 then noUrlsResp
    else
      match captured with
      | JsonVal.str s =>
        match b64 (stripComma s) with
        | Except.error e => decodeFailResp (stripComma s) e
        | Except.ok _ =>
          scanResp (stripComma s)
            (compare_photo_and_array fetch verify capturedPath (jsonItems urls))
      | other =>
        match commaTest other with
        | none =>
          err500 ("argument of type " ++ pyTypeName other ++ " is not iterable")
        | some true =>
          err500 (pyTypeName other ++ " object has no attribute split")
        | some false => decodeTypeFailResp other

/-- Shallow embedding of the `compare_faces` endpoint handler (app.py lines
97-175) on a parsed JSON body.  `data = none` models a `null` body
(`request.json` is `None`, falsy); an object body is its field list.  The
check of app.py line 103 — `not data or missing key` — collapses to the two
lookups, since an empty dict is exactly one on which both lookups fail. -/
def compare_faces (fetch : String → FetchResult)
    (verify : String → List Nat → VerifyResult)
    (b64 : String → Except String (List Nat))
    (data : Option (List (String × JsonVal))) : HandlerResult :=
  match data with
  | none => invalidResp
  | some fields =>
    match lookupField "capturedImage" fields, lookupField "databaseUrls" fields with
    | some captured, some urls => handleBody fetch verify b64 captured urls
    | _, _ => invalidResp

lemma compare_faces_lookup (f : String → FetchResult)
    (v : String → List Nat → VerifyResult) (b : String → Except String (List Nat))
    (fields : List (String × JsonVal)) (captured urls : JsonVal)
    (h1 : lookupField "capturedImage" fields = some captured)
    (h2 : lookupField "databaseUrls" fields = some urls) :
    compare_faces f v b (some fields) = handleBody f v b captured urls := by
  simp [compare_faces, h1, h2]

lemma handleBody_str_ok (f : String → FetchResult)
    (v : String → List Nat → VerifyResult) (b : String → Except String (List Nat))
    (s : String) (us : List JsonVal) (hne : us ≠ []) (bs : List Nat)
    (hok : b (stripComma s) = Except.ok bs) :
    handleBody f v b (JsonVal.str s) (JsonVal.arr us) =
      scanResp (stripComma s) (compare_photo_and_array f v capturedPath us) := by
  simp only [handleBody, pyLen]
  rw [if_neg (fun h => hne (List.length_eq_zero.mp h))]
  simp only [hok, jsonItems]

lemma handleBody_str_err (f : String → FetchResult)
    (v : String → List Nat → VerifyResult) (b : String → Except String (List Nat))
    (s : String) (us : List JsonVal) (hne : us ≠ []) (e : String)
    (herr : b (stripComma s) = Except.error e) :
    handleBody f v b (JsonVal.str s) (JsonVal.arr us) =
      decodeFailResp (stripComma s) e := by
  simp only [handleBody, pyLen]
  rw [if_neg (fun h => hne (List.length_eq_zero.mp h))]
  simp only [herr]

lemma handleBody_scalar (f : String → FetchResult)
    (v : String → List Nat → VerifyResult) (b : String → Except String (List Nat))
    (val : JsonVal) (hval : isNonStrScalar val = true)
    (us : List JsonVal) (hne : us ≠ []) :
    handleBody f v b val (JsonVal.arr us) =
      err500 ("argument of type " ++ pyTypeName val ++ " is not iterable") := by
  cases val with
  | num n =>
    simp only [handleBody, pyLen]
    rw [if_neg (fun h => hne (List.length_eq_zero.mp h))]
    exact rfl
  | bool bb =>
    simp only [handleBody, pyLen]
    rw [if_neg (fun h => hne (List.length_eq_zero.mp h))]
    exact rfl
  | null =>
    simp only [handleBody, pyLen]
    rw [if_neg (fun h => hne (List.length_eq_zero.mp h))]
    exact rfl
  | str s => simp [isNonStrScalar] at hval
  | arr xs => simp [isNonStrScalar] at hval
  | obj fs => simp [isNonStrScalar] at hval

lemma scan_some_verified (f : String → FetchResult)
    (v : String → List Nat → VerifyResult) (p : String)
    (items : List JsonVal) (u : String)
    (h : compare_photo_and_array f v p items = some u) :
    (compare_photo_with_url f v p u).verified = true := by
  induction items with
  | nil => simp [compare_photo_and_array] at h
  | cons y ys ih =>
    cases y with
    | str w =>
      cases hw : (compare_photo_with_url f v p w).verified with
      | true =>
        simp only [compare_photo_and_array, hw, if_true] at h
        simp only [Option.some.injEq] at h
        subst h
        exact hw
      | false =>
        simp only [compare_photo_and_array, hw] at h
        simp only [Bool.false_eq_true, if_false] at h
        exact ih h
    | num n => simp only [compare_photo_and_array] at h; exact ih h
    | bool bb => simp only [compare_photo_and_array] at h; exact ih h
    | null => simp only [compare_photo_and_array] at h; exact ih h
    | arr xs => simp only [compare_photo_and_array] at h; exact ih h
    | obj fs => simp only [compare_photo_and_array] at h; exact ih h

/-- C4. Whenever the request got far enough that the decoded captured image
was written to the transient file, that file no longer exists when the
handler returns, on every outcome — match, no-match, and (vacuously, since
every 500 in the handler is raised before the file is created) the
unexpected-error path alike. -/
theorem spec_c4_captured_file_cleanup (f : String → FetchResult)
    (v : String → List Nat → VerifyResult) (b : String → Except String (List Nat))
    (data : Option (List (String × JsonVal))) :
    (compare_faces f v b data).capturedImageWritten = true →
      (compare_faces f v b data).capturedFileAtEnd = false := by
  unfold compare_faces handleBody scanResp
  (repeat' split) <;>
    simp [invalidResp, err500, noUrlsResp, decodeFailResp, decodeTypeFailResp,
      noMatchResp]

/-- C5. A body that lacks `capturedImage`, lacks `databaseUrls`, or carries
an empty `databaseUrls` list is answered with HTTP 400, `matchFound` false
and an error field, and the candidate scan is never invoked. -/
theorem spec_c5_validation_400 (f : String → FetchResult)
    (v : String → List Nat → VerifyResult) (b : String → Except String (List Nat))
    (fields : List (String × JsonVal))
    (h : lookupField "capturedImage" fields = none
      ∨ lookupField "databaseUrls" fields = none
      ∨ lookupField "databaseUrls" fields = some (JsonVal.arr [])) :
    (compare_faces f v b (some fields)).status = 400
    ∧ (compare_faces f v b (some fields)).matchFound = false
    ∧ (compare_faces f v b (some fields)).error.isSome = true
    ∧ (compare_faces f v b (some fields)).scanInvoked = false := by
  rcases h with h | h | h
  · cases h2 : lookupField "databaseUrls" fields <;>
      simp [compare_faces, h, h2, invalidResp]
  · cases h1 : lookupField "capturedImage" fields <;>
      simp [compare_faces, h, h1, invalidResp]
  · cases h1 : lookupField "capturedImage" fields with
    | none => simp [compare_faces, h, h1, invalidResp]
    | some c =>
      simp [compare_faces, h, h1, handleBody, pyLen, noUrlsResp]

/-- Concrete base64 oracle for witnesses, agreeing with Python's
`base64.b64decode` at every probed point: the empty string decodes to zero
bytes, the string `AA` decodes to one zero byte, and the single letter `x`
raises `binascii.Error` (its length is 1 more than a multiple of 4). -/
def b64W : String → Except String (List Nat) := fun s =>
  if s = "" then Except.ok []
  else if s = "AA" then Except.ok [0]
  else Except.error "Invalid base64-encoded string: number of data characters (1) cannot be 1 more than a multiple of 4"

/-- Body of a request whose `databaseUrls` list is empty. -/
def fieldsC5 : List (String × JsonVal) :=
  [("capturedImage", JsonVal.str "x"), ("databaseUrls", JsonVal.arr [])]

theorem spec_c5_witness :
    (lookupField "capturedImage" fieldsC5 = none
      ∨ lookupField "databaseUrls" fieldsC5 = none
      ∨ lookupField "databaseUrls" fieldsC5 = some (JsonVal.arr []))
    ∧ (compare_faces fetchW verifyW b64W (some fieldsC5)).status = 400
    ∧ (compare_faces fetchW verifyW b64W (some fieldsC5)).matchFound = false
    ∧ (compare_faces fetchW verifyW b64W (some fieldsC5)).error.isSome = true
    ∧ (compare_faces fetchW verifyW b64W (some fieldsC5)).scanInvoked = false :=
  ⟨Or.inr (Or.inr rfl),
    spec_c5_validation_400 fetchW verifyW b64W fieldsC5 (Or.inr (Or.inr rfl))⟩

/-- Body of a valid request whose captured image matches its second
candidate while the first fails to download. -/
def fieldsC9 : List (String × JsonVal) :=
  [("capturedImage", JsonVal.str "x,AA"),
   ("databaseUrls", JsonVal.arr [JsonVal.str "bad", JsonVal.str "good"])]

theorem spec_c4_witness :
    (compare_faces fetchW verifyW b64W (some fieldsC9)).capturedImageWritten = true
    ∧ (compare_faces fetchW verifyW b64W (some fieldsC9)).capturedFileAtEnd = false :=
  ⟨by decide, spec_c4_captured_file_cleanup fetchW verifyW b64W (some fieldsC9) (by decide)⟩

/-- Body with `capturedImage` present but equal to the empty string. -/
def fieldsC6 : List (String × JsonVal) :=
  [("capturedImage", JsonVal.str ""), ("databaseUrls", JsonVal.arr [JsonVal.str "u"])]

/-- C6 counterexample. A request whose `capturedImage` is the empty string
is answered with HTTP 200, not with the client-error 400 the claim
requires: line 103 only tests key presence, and the empty string is valid
base64 (it decodes to zero bytes), so the request proceeds to the scan. -/
theorem spec_c6_counterexample :
    (compare_faces fetchW verifyW b64W (some fieldsC6)).status = 200
    ∧ ¬ ((compare_faces fetchW verifyW b64W (some fieldsC6)).status = 400) := by
  decide

/-- C6 amended. With `capturedImage` present but empty (and a non-empty
candidate list), validation passes, the empty string decodes as base64 to
zero bytes (`b64decode of the empty string is empty bytes`, the `hb`
hypothesis), the scan runs, and the response status is 200 with no error
field — never a 400. -/
theorem spec_c6_empty_capture_amended (f : String → FetchResult)
    (v : String → List Nat → VerifyResult) (b : String → Except String (List Nat))
    (fields : List (String × JsonVal)) (us : List JsonVal)
    (h1 : lookupField "capturedImage" fields = some (JsonVal.str ""))
    (h2 : lookupField "databaseUrls" fields = some (JsonVal.arr us))
    (hne : us ≠ [])
    (hb : b "" = Except.ok []) :
    (compare_faces f v b (some fields)).status = 200
    ∧ (compare_faces f v b (some fields)).error = none
    ∧ (compare_faces f v b (some fields)).scanInvoked = true := by
  rw [compare_faces_lookup f v b fields _ _ h1 h2]
  rw [handleBody_str_ok f v b "" us hne []
    (by rw [show stripComma "" = "" from rfl]; exact hb)]
  unfold scanResp
  (repeat' split) <;> simp [noMatchResp]

theorem spec_c6_witness :
    b64W "" = Except.ok []
    ∧ (compare_faces fetchW verifyW b64W (some fieldsC6)).status = 200
    ∧ (compare_faces fetchW verifyW b64W (some fieldsC6)).error = none
    ∧ (compare_faces fetchW verifyW b64W (some fieldsC6)).scanInvoked = true := by
  refine ⟨rfl, ?_⟩
  exact spec_c6_empty_capture_amended fetchW verifyW b64W fieldsC6 [JsonVal.str "u"]
    rfl rfl (by simp) rfl

/-- Body whose `capturedImage` contains two commas. -/
def fieldsC7 : List (String × JsonVal) :=
  [("capturedImage", JsonVal.str "x,AA,BB"),
   ("databaseUrls", JsonVal.arr [JsonVal.str "u"])]

/-- C7 counterexample. For `capturedImage` equal to `x,AA,BB` the string
handed to `base64.b64decode` is `AA` — the segment between the first and
second comma, `split(',')[1]` — and not `AA,BB`, the entire remainder after
the first comma that the claim promises. -/
theorem spec_c7_counterexample :
    (compare_faces fetchW verifyW b64W (some fieldsC7)).b64Input = some "AA"
    ∧ ¬ ((compare_faces fetchW verifyW b64W (some fieldsC7)).b64Input = some "AA,BB") := by
  decide

/-- C7 amended. When `capturedImage` contains a comma, the string that gets
base64-decoded is `split(',')[1]`: the element at index 1 of the comma
split, i.e. the segment strictly between the first and the second comma.
This equals the full remainder after the first comma exactly when the
string contains no second comma. -/
theorem spec_c7_split_amended (f : String → FetchResult)
    (v : String → List Nat → VerifyResult) (b : String → Except String (List Nat))
    (fields : List (String × JsonVal)) (s : String) (us : List JsonVal)
    (h1 : lookupField "capturedImage" fields = some (JsonVal.str s))
    (h2 : lookupField "databaseUrls" fields = some (JsonVal.arr us))
    (hne : us ≠ [])
    (hc : strHasComma s = true) :
    (compare_faces f v b (some fields)).b64Input =
      some (String.mk ((splitOnComma s.toList).getD 1 [])) := by
  rw [compare_faces_lookup f v b fields _ _ h1 h2]
  cases hb : b (stripComma s) with
  | error e =>
    rw [handleBody_str_err f v b s us hne e hb]
    simp [decodeFailResp, stripComma, hc]
  | ok bs =>
    rw [handleBody_str_ok f v b s us hne bs hb]
    unfold scanResp
    (repeat' split) <;> simp [noMatchResp, stripComma, hc]

theorem spec_c7_witness :
    strHasComma "x,AA,BB" = true
    ∧ (compare_faces fetchW verifyW b64W (some fieldsC7)).b64Input =
        some (String.mk ((splitOnComma "x,AA,BB".toList).getD 1 [])) :=
  ⟨by decide,
    spec_c7_split_amended fetchW verifyW b64W fieldsC7 "x,AA,BB" [JsonVal.str "u"]
      rfl rfl (by simp) (by decide)⟩

/-- C8. When the (possibly prefix-stripped) `capturedImage` string fails
base64 decoding, the response is a 400 whose error field carries the decode
failure's description, and it is never a 500. -/
theorem spec_c8_bad_base64_400 (f : String → FetchResult)
    (v : String → List Nat → VerifyResult) (b : String → Except String (List Nat))
    (fields : List (String × JsonVal)) (s : String) (us : List JsonVal) (e : String)
    (h1 : lookupField "capturedImage" fields = some (JsonVal.str s))
    (h2 : lookupField "databaseUrls" fields = some (JsonVal.arr us))
    (hne : us ≠ [])
    (herr : b (stripComma s) = Except.error e) :
    (compare_faces f v b (some fields)).status = 400
    ∧ (compare_faces f v b (some fields)).error =
        some ("Invalid base64 image data: " ++ e)
    ∧ ¬ ((compare_faces f v b (some fields)).status = 500) := by
  rw [compare_faces_lookup f v b fields _ _ h1 h2]
  rw [handleBody_str_err f v b s us hne e herr]
  simp [decodeFailResp]

/-- Body whose `capturedImage` is a malformed base64 string. -/
def fieldsC8 : List (String × JsonVal) :=
  [("capturedImage", JsonVal.str "x"), ("databaseUrls", JsonVal.arr [JsonVal.str "u"])]

theorem spec_c8_witness :
    b64W (stripComma "x") = Except.error "Invalid base64-encoded string: number of data characters (1) cannot be 1 more than a multiple of 4"
    ∧ (compare_faces fetchW verifyW b64W (some fieldsC8)).status = 400
    ∧ (compare_faces fetchW verifyW b64W (some fieldsC8)).error =
        some ("Invalid base64 image data: " ++ "Invalid base64-encoded string: number of data characters (1) cannot be 1 more than a multiple of 4")
    ∧ ¬ ((compare_faces fetchW verifyW b64W (some fieldsC8)).status = 500) :=
  ⟨rfl,
    spec_c8_bad_base64_400 fetchW verifyW b64W fieldsC8 "x" [JsonVal.str "u"] _
      rfl rfl (by simp) rfl⟩

/-- C9. On a valid request (both fields present, non-empty string list,
payload decodes), the response mirrors the scan result: a truthy matched
URL gives HTTP 200 with `matchFound` true, that URL, and the fixed
confidence constant 0.85; no match gives HTTP 200 with `matchFound` false,
the explanatory message, and no error field.  The hypothesis `hf` records
that `requests.get` of an empty URL always raises (`MissingSchema`), which
is what keeps the empty string — the one falsy URL, which line 153's
truthiness test would misreport — out of the scan's possible results. -/
theorem spec_c9_response_shape (f : String → FetchResult)
    (v : String → List Nat → VerifyResult) (b : String → Except String (List Nat))
    (hf : f "" = FetchResult.failure)
    (fields : List (String × JsonVal)) (s : String) (us : List JsonVal) (bs : List Nat)
    (h1 : lookupField "capturedImage" fields = some (JsonVal.str s))
    (h2 : lookupField "databaseUrls" fields = some (JsonVal.arr us))
    (hne : us ≠ [])
    (hok : b (stripComma s) = Except.ok bs) :
    (∀ u, compare_photo_and_array f v capturedPath us = some u →
      (compare_faces f v b (some fields)).status = 200
      ∧ (compare_faces f v b (some fields)).matchFound = true
      ∧ (compare_faces f v b (some fields)).matchedImageUrl = some u
      ∧ (compare_faces f v b (some fields)).confidence = some ((85 : ℚ) / 100)
      ∧ (compare_faces f v b (some fields)).error = none)
    ∧ (compare_photo_and_array f v capturedPath us = none →
      (compare_faces f v b (some fields)).status = 200
      ∧ (compare_faces f v b (some fields)).matchFound = false
      ∧ (compare_faces f v b (some fields)).message =
          some "No matching face found in the database"
      ∧ (compare_faces f v b (some fields)).error = none) := by
  have hcf : compare_faces f v b (some fields) =
      scanResp (stripComma s) (compare_photo_and_array f v capturedPath us) := by
    rw [compare_faces_lookup f v b fields _ _ h1 h2]
    exact handleBody_str_ok f v b s us hne bs hok
  constructor
  · intro u hu
    have hne2 : u ≠ "" := by
      intro h0
      subst h0
      have hv := scan_some_verified f v capturedPath us "" hu
      rw [verified_eq_fetchAndMatch] at hv
      unfold fetchAndMatch at hv
      rw [hf] at hv
      simp at hv
    rw [hcf, hu]
    simp [scanResp, hne2]
  · intro hu
    rw [hcf, hu]
    simp [scanResp, noMatchResp]

theorem spec_c9_witness :
    fetchW "" = FetchResult.failure
    ∧ compare_photo_and_array fetchW verifyW capturedPath
        [JsonVal.str "bad", JsonVal.str "good"] = some "good"
    ∧ (compare_faces fetchW verifyW b64W (some fieldsC9)).status = 200
    ∧ (compare_faces fetchW verifyW b64W (some fieldsC9)).matchFound = true
    ∧ (compare_faces fetchW verifyW b64W (some fieldsC9)).matchedImageUrl = some "good"
    ∧ (compare_faces fetchW verifyW b64W (some fieldsC9)).confidence = some ((85 : ℚ) / 100)
    ∧ (compare_faces fetchW verifyW b64W (some fieldsC9)).error = none := by
  have h := (spec_c9_response_shape fetchW verifyW b64W rfl fieldsC9 "x,AA"
    [JsonVal.str "bad", JsonVal.str "good"] [0] rfl rfl (by simp) rfl).1 "good" rfl
  exact ⟨rfl, rfl, h.1, h.2.1, h.2.2.1, h.2.2.2.1, h.2.2.2.2⟩

/-- Body whose `capturedImage` is an empty JSON list and whose candidate
list is non-empty. -/
def fieldsC10x : List (String × JsonVal) :=
  [("capturedImage", JsonVal.arr []), ("databaseUrls", JsonVal.arr [JsonVal.str "u"])]

/-- C10 counterexample. With `capturedImage` a (non-string) empty JSON
list, the comma membership test succeeds (`a_comma in []` is just `False`),
so the failure happens only at `base64.b64decode`, inside the inner
`try/except`, and the response is a 400 — not the 500 the claim asserts for
every non-string value. -/
theorem spec_c10_counterexample :
    (compare_faces fetchW verifyW b64W (some fieldsC10x)).status = 400
    ∧ ¬ ((compare_faces fetchW verifyW b64W (some fieldsC10x)).status = 500) := by
  decide

/-- C10 amended. For `capturedImage` a non-string scalar (number, boolean
or null) together with a non-empty `databaseUrls` list, the comma
membership test of line 124 raises `TypeError`, only the outer handler
catches it, and the response is HTTP 500 with `matchFound` false and an
error field.  (Non-string container values — lists and dicts — survive the
membership test instead and fail at base64 decoding with a 400.) -/
theorem spec_c10_scalar_500_amended (f : String → FetchResult)
    (v : String → List Nat → VerifyResult) (b : String → Except String (List Nat))
    (fields : List (String × JsonVal)) (val : JsonVal) (us : List JsonVal)
    (h1 : lookupField "capturedImage" fields = some val)
    (hval : isNonStrScalar val = true)
    (h2 : lookupField "databaseUrls" fields = some (JsonVal.arr us))
    (hne : us ≠ []) :
    (compare_faces f v b (some fields)).status = 500
    ∧ (compare_faces f v b (some fields)).matchFound = false
    ∧ (compare_faces f v b (some fields)).error.isSome = true := by
  rw [compare_faces_lookup f v b fields _ _ h1 h2]
  rw [handleBody_scalar f v b val hval us hne]
  simp [err500]

/-- Body whose `capturedImage` is the JSON number 5. -/
def fieldsC10 : List (String × JsonVal) :=
  [("capturedImage", JsonVal.num 5), ("databaseUrls", JsonVal.arr [JsonVal.str "u"])]

theorem spec_c10_witness :
    isNonStrScalar (JsonVal.num 5) = true
    ∧ (compare_faces fetchW verifyW b64W (some fieldsC10)).status = 500
    ∧ (compare_faces fetchW verifyW b64W (some fieldsC10)).matchFound = false
    ∧ (compare_faces fetchW verifyW b64W (some fieldsC10)).error.isSome = true :=
  ⟨rfl,
    spec_c10_scalar_500_amended fetchW verifyW b64W fieldsC10 (JsonVal.num 5)
      [JsonVal.str "u"] rfl rfl rfl (by simp)⟩
